import Mathlib

/-!
Shallow embedding of the tornis viewport tracker (src: the Tornis class in
the bundled source, plus its helpers throttled and getMean).

Modelling conventions:
- JavaScript numbers that are always real values are modelled as rationals.
- A JavaScript value that may be undefined or NaN is modelled as `Option`
  rationals, with `none` standing for both undefined and NaN.  The two are
  only distinguishable by comparing two non-number values with each other
  (undefined != undefined is false while NaN != NaN is true); the source
  never does that, every comparison has a number literal or a number-valued
  field on one side, so one `none` is faithful.  `jsNeq` follows the NaN
  convention in the unreachable none/none case.
- `Math.floor` on rationals is `Int.floor` (both round toward negative
  infinity).
- Callbacks are abstract values carrying an identity (`id`), whether
  `typeof cb` is a function (`isFunction`), and whether invoking them raises
  an exception (`throws`).  Dispatch records the sequence of invocations and
  whether an exception aborted it; an exception raised during the immediate
  call in `watch` is surfaced as the call outcome of `watch`.
- The event throttle (`throttled`) is a wall-clock rate limiter; time is not
  modelled, so event handlers are modelled as the unthrottled state writers
  they wrap.  The `requestAnimationFrame` scheduling is modelled by applying
  `update` once per tick.
-/

set_option maxHeartbeats 1600000

namespace Tornis

/-- A JavaScript number-or-not: `some q` is a real number, `none` stands for
undefined or NaN. -/
abbrev JsNum : Type := Option ℚ

/-- JavaScript loose inequality `a != b` restricted to the shapes the source
compares: a non-number on either side makes the comparison true (NaN
convention; the source never compares two non-numbers). -/
def jsNeq (a b : JsNum) : Bool :=
  match a, b with
  | some x, some y => decide (x ≠ y)
  | _, _ => true

/-- JavaScript subtraction: any non-number operand yields NaN. -/
def jsSub (a b : JsNum) : JsNum :=
  match a, b with
  | some x, some y => some (x - y)
  | _, _ => none

/-- `Math.floor`: NaN stays NaN, numbers round toward negative infinity. -/
def jsFloor (a : JsNum) : JsNum :=
  match a with
  | some x => some ((⌊x⌋ : ℤ) : ℚ)
  | none => none

/-- The `x || 0` guard applied to a number-or-NaN: NaN (and 0 itself) falls
back to 0, every other number passes through. -/
def jsOrZero (a : JsNum) : JsNum :=
  some (a.getD 0)

/-- JavaScript truthiness test used by `handleOrientation` on the initial
orientation fields: undefined and 0 are falsy. -/
def jsFalsy (a : JsNum) : Bool :=
  match a with
  | some x => decide (x = 0)
  | none => true

/-- Helper `getMean`: `Math.floor(arr.reduce((acc, curr) => acc + curr, 0) / arr.length)`.
On an empty array the division is 0/0, which is NaN in JavaScript. -/
def getMean (arr : List ℚ) : JsNum :=
  if arr.isEmpty then none
  else some ((⌊arr.sum / (arr.length : ℚ)⌋ : ℤ) : ℚ)

/-- The buffer maintenance pattern the update loop applies to each rolling
velocity buffer: `if (buf.length > 5) { buf.shift(); } buf.push(delta)`. -/
def pushDelta (buf : List ℚ) (delta : ℚ) : List ℚ :=
  (if 5 < buf.length then buf.tail else buf) ++ [delta]

/-- A value passed to watch/unwatch, and dispatched to when subscribed:
identity for reference equality, whether it is a function, and whether
invoking it raises. -/
structure JsCallbackVal where
  id : ℕ
  isFunction : Bool
  throws : Bool
deriving DecidableEq, Repr

/-- An exception propagating out of watch/unwatch: the invalid-callback
validation error the methods throw themselves, or an exception raised by the
callback during the immediate first call of `watch`, which the source does
not catch. -/
inductive TornisError where
  | invalidCallback
  | callbackException
deriving DecidableEq, Repr

/-- Velocity pair inside a formatted snapshot. -/
structure SnapVelocity where
  x : JsNum
  y : JsNum
deriving DecidableEq, Repr

/-- The `scroll` section of a formatted snapshot. -/
structure ScrollData where
  changed : Bool
  left : ℤ
  right : ℤ
  top : ℤ
  bottom : ℤ
  velocity : SnapVelocity
deriving DecidableEq, Repr

/-- The `size` section of a formatted snapshot. -/
structure SizeData where
  changed : Bool
  x : ℤ
  y : ℤ
  docY : ℤ
deriving DecidableEq, Repr

/-- The `mouse` section of a formatted snapshot. -/
structure MouseData where
  changed : Bool
  x : ℤ
  y : ℤ
  velocity : SnapVelocity
deriving DecidableEq, Repr

/-- The `position` (window screen position) section of a formatted snapshot. -/
structure PositionData where
  changed : Bool
  left : ℤ
  right : ℤ
  top : ℤ
  bottom : ℤ
  velocity : SnapVelocity
deriving DecidableEq, Repr

/-- The `orientation` section of a formatted snapshot. -/
structure OrientationData where
  changed : Bool
  alpha : JsNum
  beta : JsNum
  gamma : JsNum
deriving DecidableEq, Repr

/-- The formatted state object returned by `formatData`. -/
structure Snapshot where
  scroll : ScrollData
  size : SizeData
  mouse : MouseData
  position : PositionData
  orientation : OrientationData
deriving DecidableEq, Repr

/-- The mutable instance fields of the Tornis class.  Field names follow the
source.  `scrollXVelocity`, `scrollYVelocity` and the `initial*` orientation
fields are never assigned in the constructor, hence start undefined (`none`).
The unused fields `currX`, `currY`, `currWindowX` (written once in the
constructor, never read) are omitted. -/
@[ext] structure TornisState where
  lastX : ℚ
  lastY : ℚ
  lastWidth : ℚ
  lastHeight : ℚ
  lastMouseX : ℚ
  lastMouseY : ℚ
  lastWindowX : ℚ
  lastWindowY : ℚ
  lastAlpha : ℚ
  lastBeta : ℚ
  lastGamma : ℚ
  currAlpha : ℚ
  currBeta : ℚ
  currGamma : ℚ
  initialAlpha : JsNum
  initialBeta : JsNum
  initialGamma : JsNum
  scrollHeight : ℚ
  scrollChange : Bool
  sizeChange : Bool
  mouseChange : Bool
  positionChange : Bool
  orientationChange : Bool
  currWidth : ℚ
  currHeight : ℚ
  currMouseX : ℚ
  currMouseY : ℚ
  mouseXVelocity : List ℚ
  mouseYVelocity : List ℚ
  lastMouseXVelocity : JsNum
  lastMouseYVelocity : JsNum
  windowXVelocity : List ℚ
  windowYVelocity : List ℚ
  lastWindowXVelocity : JsNum
  lastWindowYVelocity : JsNum
  scrollXVelocity : JsNum
  scrollYVelocity : JsNum
  updating : Bool
  callbacks : List JsCallbackVal
deriving DecidableEq

/-- The browser-native values the engine reads directly (by polling in the
constructor and in `update`, or inside the resize handler). -/
structure Env where
  innerWidth : ℚ
  innerHeight : ℚ
  screenX : ℚ
  screenY : ℚ
  pageXOffset : ℚ
  pageYOffset : ℚ
  scrollHeight : ℚ
deriving DecidableEq, Repr

/-- The constructor of the Tornis class (non-SSR path). -/
def initTornis (env : Env) : TornisState where
  lastX := 0
  lastY := 0
  lastWidth := env.innerWidth
  lastHeight := env.innerHeight
  lastMouseX := 0
  lastMouseY := 0
  lastWindowX := env.screenX
  lastWindowY := env.screenY
  lastAlpha := 0
  lastBeta := 0
  lastGamma := 0
  currAlpha := 0
  currBeta := 0
  currGamma := 0
  initialAlpha := none
  initialBeta := none
  initialGamma := none
  scrollHeight := env.scrollHeight
  scrollChange := false
  sizeChange := false
  mouseChange := false
  positionChange := false
  orientationChange := false
  currWidth := env.innerWidth
  currHeight := env.innerHeight
  currMouseX := 0
  currMouseY := 0
  mouseXVelocity := []
  mouseYVelocity := []
  lastMouseXVelocity := some 0
  lastMouseYVelocity := some 0
  windowXVelocity := []
  windowYVelocity := []
  lastWindowXVelocity := some 0
  lastWindowYVelocity := some 0
  scrollXVelocity := none
  scrollYVelocity := none
  updating := false
  callbacks := []

/-- Event handler `handleResize` (the throttle around it is a wall-clock rate
limiter and is not modelled). -/
def handleResize (env : Env) (s : TornisState) : TornisState :=
  { s with currWidth := env.innerWidth, currHeight := env.innerHeight }

/-- Event handler `handleMouse` (the throttle around it is not modelled). -/
def handleMouse (clientX clientY : ℚ) (s : TornisState) : TornisState :=
  { s with currMouseX := clientX, currMouseY := clientY }

/-- Event handler `handleOrientation`: caches the initial reading while the
cached value is falsy, then records the current reading. -/
def handleOrientation (alpha beta gamma : ℚ) (s : TornisState) : TornisState :=
  let s := if jsFalsy s.initialAlpha then { s with initialAlpha := some alpha } else s
  let s := if jsFalsy s.initialBeta then { s with initialBeta := some beta } else s
  let s := if jsFalsy s.initialGamma then { s with initialGamma := some gamma } else s
  { s with currAlpha := alpha, currBeta := beta, currGamma := gamma }

/-- Method `formatData`: a copy of the store, formatted for public use. -/
def formatData (s : TornisState) : Snapshot where
  scroll :=
    { changed := s.scrollChange
      left := ⌊s.lastX⌋
      right := ⌊s.lastX + s.lastWidth⌋
      top := ⌊s.lastY⌋
      bottom := ⌊s.lastY + s.lastHeight⌋
      velocity :=
        { x := jsOrZero (jsFloor s.scrollXVelocity)
          y := jsOrZero (jsFloor s.scrollYVelocity) } }
  size :=
    { changed := s.sizeChange
      x := ⌊s.lastWidth⌋
      y := ⌊s.lastHeight⌋
      docY := ⌊s.scrollHeight⌋ }
  mouse :=
    { changed := s.mouseChange
      x := ⌊s.lastMouseX⌋
      y := ⌊s.lastMouseY⌋
      velocity :=
        { x := jsOrZero (jsFloor s.lastMouseXVelocity)
          y := jsOrZero (jsFloor s.lastMouseYVelocity) } }
  position :=
    { changed := s.positionChange
      left := ⌊s.lastWindowX⌋
      right := ⌊s.lastWindowX + s.lastWidth⌋
      top := ⌊s.lastWindowY⌋
      bottom := ⌊s.lastWindowY + s.lastHeight⌋
      velocity :=
        { x := jsOrZero (jsFloor s.lastWindowXVelocity)
          y := jsOrZero (jsFloor s.lastWindowYVelocity) } }
  orientation :=
    { changed := s.orientationChange
      alpha := jsOrZero (jsFloor (jsSub (some s.lastAlpha) s.initialAlpha))
      beta := jsOrZero (jsFloor (jsSub (some s.lastBeta) s.initialBeta))
      gamma := jsOrZero (jsFloor (jsSub (some s.lastGamma) s.initialGamma)) }

/-- Method `recalibrateOrientation`: caches the old `initial*` values under
the key "prev", resets them to the `last*` readings, stores the new values
under the key "current", and returns the record.  The returned object is
modelled as an ordered key/value list so that its key names are part of the
embedding. -/
structure OrientationTriple where
  alpha : JsNum
  beta : JsNum
  gamma : JsNum
deriving DecidableEq, Repr

/-- See `OrientationTriple`; this is `recalibrateOrientation` itself. -/
def recalibrateOrientation (s : TornisState) :
    TornisState × List (String × OrientationTriple) :=
  let prevTriple : OrientationTriple :=
    { alpha := s.initialAlpha, beta := s.initialBeta, gamma := s.initialGamma }
  let s := { s with
    initialAlpha := some s.lastAlpha
    initialBeta := some s.lastBeta
    initialGamma := some s.lastGamma }
  let currTriple : OrientationTriple :=
    { alpha := s.initialAlpha, beta := s.initialBeta, gamma := s.initialGamma }
  (s, [("prev", prevTriple), ("current", currTriple)])

/-- Lines of `update` handling the window X axis: maintain the rolling
buffer, compare the mean against the stored velocity, then compare the raw
position against the last known one. -/
def stepWindowX (env : Env) (s : TornisState) : TornisState :=
  let buf := pushDelta s.windowXVelocity (env.screenX - s.lastWindowX)
  let s := { s with windowXVelocity := buf }
  let s :=
    if jsNeq (getMean buf) s.lastWindowXVelocity then
      { s with lastWindowXVelocity := getMean buf, positionChange := true }
    else s
  if env.screenX ≠ s.lastWindowX then
    { s with positionChange := true, lastWindowX := env.screenX }
  else s

/-- Lines of `update` handling the window Y axis. -/
def stepWindowY (env : Env) (s : TornisState) : TornisState :=
  let buf := pushDelta s.windowYVelocity (env.screenY - s.lastWindowY)
  let s := { s with windowYVelocity := buf }
  let s :=
    if jsNeq (getMean buf) s.lastWindowYVelocity then
      { s with lastWindowYVelocity := getMean buf, positionChange := true }
    else s
  if env.screenY ≠ s.lastWindowY then
    { s with positionChange := true, lastWindowY := env.screenY }
  else s

/-- Lines of `update` handling the scroll axis: the two velocity reset
branches, then the two position-change branches. -/
def stepScroll (env : Env) (s : TornisState) : TornisState :=
  let s :=
    if env.pageXOffset = s.lastX ∧ jsNeq s.scrollXVelocity (some 0) = true then
      { s with scrollXVelocity := some 0, scrollChange := true }
    else s
  let s :=
    if env.pageYOffset = s.lastY ∧ jsNeq s.scrollYVelocity (some 0) = true then
      { s with scrollYVelocity := some 0, scrollChange := true }
    else s
  let s :=
    if env.pageXOffset ≠ s.lastX then
      { s with
        scrollChange := true
        scrollXVelocity := some ((⌊env.pageXOffset - s.lastX⌋ : ℤ) : ℚ)
        lastX := env.pageXOffset }
    else s
  if env.pageYOffset ≠ s.lastY then
    { s with
      scrollChange := true
      scrollYVelocity := some ((⌊env.pageYOffset - s.lastY⌋ : ℤ) : ℚ)
      lastY := env.pageYOffset }
  else s

/-- Lines of `update` handling the size axis: only the width branch re-polls
the document scroll height. -/
def stepSize (env : Env) (s : TornisState) : TornisState :=
  let s :=
    if s.currWidth ≠ s.lastWidth then
      { s with
        lastWidth := s.currWidth
        scrollHeight := env.scrollHeight
        sizeChange := true }
    else s
  if s.currHeight ≠ s.lastHeight then
    { s with lastHeight := s.currHeight, sizeChange := true }
  else s

/-- Lines of `update` handling the mouse X axis. -/
def stepMouseX (s : TornisState) : TornisState :=
  let buf := pushDelta s.mouseXVelocity (s.currMouseX - s.lastMouseX)
  let s := { s with mouseXVelocity := buf }
  let s :=
    if jsNeq (getMean buf) s.lastMouseXVelocity then
      { s with lastMouseXVelocity := getMean buf, mouseChange := true }
    else s
  if s.currMouseX ≠ s.lastMouseX then
    { s with lastMouseX := s.currMouseX, mouseChange := true }
  else s

/-- Lines of `update` handling the mouse Y axis.  Unlike every other axis,
the position branch also fires when the buffer mean is nonzero. -/
def stepMouseY (s : TornisState) : TornisState :=
  let buf := pushDelta s.mouseYVelocity (s.currMouseY - s.lastMouseY)
  let s := { s with mouseYVelocity := buf }
  let s :=
    if jsNeq (getMean buf) s.lastMouseYVelocity then
      { s with lastMouseYVelocity := getMean buf, mouseChange := true }
    else s
  if s.currMouseY ≠ s.lastMouseY ∨ jsNeq (getMean s.mouseYVelocity) (some 0) = true then
    { s with lastMouseY := s.currMouseY, mouseChange := true }
  else s

/-- Lines of `update` handling the orientation axis. -/
def stepOrientation (s : TornisState) : TornisState :=
  let s :=
    if s.currAlpha ≠ s.lastAlpha then
      { s with lastAlpha := s.currAlpha, orientationChange := true }
    else s
  let s :=
    if s.currBeta ≠ s.lastBeta then
      { s with lastBeta := s.currBeta, orientationChange := true }
    else s
  if s.currGamma ≠ s.lastGamma then
    { s with lastGamma := s.currGamma, orientationChange := true }
  else s

/-- Flag reset at the start of `update`. -/
def resetFlags (s : TornisState) : TornisState :=
  { s with
    scrollChange := false
    sizeChange := false
    mouseChange := false
    positionChange := false
    orientationChange := false }

/-- The reconciliation pass of `update`, in source order: flag reset, window
X, window Y, scroll, size, mouse X, mouse Y, orientation. -/
def reconcile (env : Env) (s : TornisState) : TornisState :=
  stepOrientation (stepMouseY (stepMouseX (stepSize env
    (stepScroll env (stepWindowY env (stepWindowX env (resetFlags s)))))))

/-- The dispatch loop `this.callbacks.forEach(cb => cb(this.formatData()))`:
invocations happen in list order; an exception from a callback propagates,
so the remaining callbacks are skipped and the flag `true` is returned to
record that the tick aborted.  (The model callbacks do not mutate the store,
so the snapshot each one receives is the same value.) -/
def dispatchList : List JsCallbackVal → Snapshot → List (JsCallbackVal × Snapshot) × Bool
  | [], _ => ([], false)
  | cb :: rest, snap =>
    if cb.throws then ([(cb, snap)], true)
    else
      let r := dispatchList rest snap
      ((cb, snap) :: r.1, r.2)

/-- The five-way disjunction guarding dispatch at the end of `update`. -/
def changedAny (t : TornisState) : Bool :=
  t.scrollChange || t.sizeChange || t.mouseChange || t.positionChange ||
    t.orientationChange

/-- Method `update`: re-entrancy guard, reconciliation, conditional dispatch,
then the `updating` reset (the re-scheduling via requestAnimationFrame is
the tick loop itself and is not part of the state).  Returns the new state,
the invocations performed, and whether a callback exception aborted the
tick (skipping the `updating` reset and the re-scheduling). -/
def update (env : Env) (s : TornisState) :
    TornisState × List (JsCallbackVal × Snapshot) × Bool :=
  if s.updating then (s, [], false)
  else
    let t := reconcile env s
    if changedAny t then
      let r := dispatchList t.callbacks (formatData t)
      if r.2 then (t, r.1, true)
      else ({ t with updating := false }, r.1, false)
    else ({ t with updating := false }, [], false)

/-- Iterated ticks against a fixed environment. -/
def tickN (env : Env) (s : TornisState) : ℕ → TornisState
  | 0 => s
  | n + 1 => (update env (tickN env s n)).1

/-- The snapshot mutation performed by `watch` before the immediate first
call: every changed flag forced to true. -/
def forceAllChanged (d : Snapshot) : Snapshot :=
  { d with
    scroll := { d.scroll with changed := true }
    mouse := { d.mouse with changed := true }
    size := { d.size with changed := true }
    position := { d.position with changed := true }
    orientation := { d.orientation with changed := true } }

/-- Method `watch`: throws on a non-function argument (before any mutation);
if `callOnWatch`, performs the immediate first call with all changed flags
forced — an exception raised by that call propagates out of `watch`
uncaught, so the `this.callbacks.push(callback)` line below it never runs —
and otherwise appends the callback to the queue.  Returns the call outcome,
the new state, and the invocations performed. -/
def watch (s : TornisState) (callback : JsCallbackVal) (callOnWatch : Bool) :
    Except TornisError Unit × TornisState × List (JsCallbackVal × Snapshot) :=
  if callback.isFunction = false then (.error .invalidCallback, s, [])
  else if callOnWatch then
    let firstRunData := forceAllChanged (formatData s)
    if callback.throws then (.error .callbackException, s, [(callback, firstRunData)])
    else (.ok (), { s with callbacks := s.callbacks ++ [callback] },
      [(callback, firstRunData)])
  else (.ok (), { s with callbacks := s.callbacks ++ [callback] }, [])

/-- Method `unwatch`: throws on a non-function argument (before any
mutation), otherwise removes every occurrence of the callback by reference
equality. -/
def unwatch (s : TornisState) (callback : JsCallbackVal) :
    Except TornisError Unit × TornisState :=
  if callback.isFunction = false then (.error .invalidCallback, s)
  else (.ok (), { s with callbacks := s.callbacks.filter (fun cb => cb ≠ callback) })

/-! ### Closed forms for the reconciliation steps

Each lemma restates one sequential step as a single record update, which is
what lets later theorems reason about a whole tick without unfolding the
sequential branch structure. -/

theorem resetFlags_eq (s : TornisState) :
    resetFlags s =
      { s with
        scrollChange := false
        sizeChange := false
        mouseChange := false
        positionChange := false
        orientationChange := false } := rfl

theorem stepWindowX_eq (env : Env) (s : TornisState) :
    stepWindowX env s =
      { s with
        windowXVelocity := pushDelta s.windowXVelocity (env.screenX - s.lastWindowX)
        lastWindowXVelocity :=
          if jsNeq (getMean (pushDelta s.windowXVelocity (env.screenX - s.lastWindowX)))
              s.lastWindowXVelocity then
            getMean (pushDelta s.windowXVelocity (env.screenX - s.lastWindowX))
          else s.lastWindowXVelocity
        lastWindowX := if env.screenX = s.lastWindowX then s.lastWindowX else env.screenX
        positionChange := s.positionChange
          || jsNeq (getMean (pushDelta s.windowXVelocity (env.screenX - s.lastWindowX)))
              s.lastWindowXVelocity
          || decide (env.screenX ≠ s.lastWindowX) } := by
  cases s
  simp only [stepWindowX]
  split_ifs <;> simp_all [TornisState.mk.injEq]

theorem stepWindowY_eq (env : Env) (s : TornisState) :
    stepWindowY env s =
      { s with
        windowYVelocity := pushDelta s.windowYVelocity (env.screenY - s.lastWindowY)
        lastWindowYVelocity :=
          if jsNeq (getMean (pushDelta s.windowYVelocity (env.screenY - s.lastWindowY)))
              s.lastWindowYVelocity then
            getMean (pushDelta s.windowYVelocity (env.screenY - s.lastWindowY))
          else s.lastWindowYVelocity
        lastWindowY := if env.screenY = s.lastWindowY then s.lastWindowY else env.screenY
        positionChange := s.positionChange
          || jsNeq (getMean (pushDelta s.windowYVelocity (env.screenY - s.lastWindowY)))
              s.lastWindowYVelocity
          || decide (env.screenY ≠ s.lastWindowY) } := by
  cases s
  simp only [stepWindowY]
  split_ifs <;> simp_all [TornisState.mk.injEq]

theorem stepScroll_eq (env : Env) (s : TornisState) :
    stepScroll env s =
      { s with
        scrollXVelocity :=
          if env.pageXOffset = s.lastX then
            (if jsNeq s.scrollXVelocity (some 0) then some 0 else s.scrollXVelocity)
          else some ((⌊env.pageXOffset - s.lastX⌋ : ℤ) : ℚ)
        scrollYVelocity :=
          if env.pageYOffset = s.lastY then
            (if jsNeq s.scrollYVelocity (some 0) then some 0 else s.scrollYVelocity)
          else some ((⌊env.pageYOffset - s.lastY⌋ : ℤ) : ℚ)
        lastX := if env.pageXOffset = s.lastX then s.lastX else env.pageXOffset
        lastY := if env.pageYOffset = s.lastY then s.lastY else env.pageYOffset
        scrollChange := s.scrollChange
          || (decide (env.pageXOffset = s.lastX) && jsNeq s.scrollXVelocity (some 0))
          || (decide (env.pageYOffset = s.lastY) && jsNeq s.scrollYVelocity (some 0))
          || decide (env.pageXOffset ≠ s.lastX)
          || decide (env.pageYOffset ≠ s.lastY) } := by
  cases s
  simp only [stepScroll]
  split_ifs <;> simp_all [TornisState.mk.injEq]

theorem stepSize_eq (env : Env) (s : TornisState) :
    stepSize env s =
      { s with
        lastWidth := if s.currWidth = s.lastWidth then s.lastWidth else s.currWidth
        lastHeight := if s.currHeight = s.lastHeight then s.lastHeight else s.currHeight
        scrollHeight := if s.currWidth = s.lastWidth then s.scrollHeight else env.scrollHeight
        sizeChange := s.sizeChange
          || decide (s.currWidth ≠ s.lastWidth)
          || decide (s.currHeight ≠ s.lastHeight) } := by
  cases s
  simp only [stepSize]
  split_ifs <;> simp_all [TornisState.mk.injEq]

theorem stepMouseX_eq (s : TornisState) :
    stepMouseX s =
      { s with
        mouseXVelocity := pushDelta s.mouseXVelocity (s.currMouseX - s.lastMouseX)
        lastMouseXVelocity :=
          if jsNeq (getMean (pushDelta s.mouseXVelocity (s.currMouseX - s.lastMouseX)))
              s.lastMouseXVelocity then
            getMean (pushDelta s.mouseXVelocity (s.currMouseX - s.lastMouseX))
          else s.lastMouseXVelocity
        lastMouseX := if s.currMouseX = s.lastMouseX then s.lastMouseX else s.currMouseX
        mouseChange := s.mouseChange
          || jsNeq (getMean (pushDelta s.mouseXVelocity (s.currMouseX - s.lastMouseX)))
              s.lastMouseXVelocity
          || decide (s.currMouseX ≠ s.lastMouseX) } := by
  cases s
  simp only [stepMouseX]
  split_ifs <;> simp_all [TornisState.mk.injEq]

theorem stepMouseY_eq (s : TornisState) :
    stepMouseY s =
      { s with
        mouseYVelocity := pushDelta s.mouseYVelocity (s.currMouseY - s.lastMouseY)
        lastMouseYVelocity :=
          if jsNeq (getMean (pushDelta s.mouseYVelocity (s.currMouseY - s.lastMouseY)))
              s.lastMouseYVelocity then
            getMean (pushDelta s.mouseYVelocity (s.currMouseY - s.lastMouseY))
          else s.lastMouseYVelocity
        lastMouseY :=
          if s.currMouseY ≠ s.lastMouseY ∨
              jsNeq (getMean (pushDelta s.mouseYVelocity (s.currMouseY - s.lastMouseY)))
                (some 0) = true then
            s.currMouseY
          else s.lastMouseY
        mouseChange := s.mouseChange
          || jsNeq (getMean (pushDelta s.mouseYVelocity (s.currMouseY - s.lastMouseY)))
              s.lastMouseYVelocity
          || decide (s.currMouseY ≠ s.lastMouseY)
          || jsNeq (getMean (pushDelta s.mouseYVelocity (s.currMouseY - s.lastMouseY)))
              (some 0) } := by
  by_cases h1 : jsNeq (getMean (pushDelta s.mouseYVelocity (s.currMouseY - s.lastMouseY)))
      s.lastMouseYVelocity = true
  all_goals by_cases h2 : s.currMouseY = s.lastMouseY
  all_goals by_cases h3 : jsNeq (getMean (pushDelta s.mouseYVelocity
      (s.currMouseY - s.lastMouseY))) (some 0) = true
  all_goals cases s
  all_goals simp_all [stepMouseY, TornisState.mk.injEq, sub_self]

theorem stepOrientation_eq (s : TornisState) :
    stepOrientation s =
      { s with
        lastAlpha := if s.currAlpha = s.lastAlpha then s.lastAlpha else s.currAlpha
        lastBeta := if s.currBeta = s.lastBeta then s.lastBeta else s.currBeta
        lastGamma := if s.currGamma = s.lastGamma then s.lastGamma else s.currGamma
        orientationChange := s.orientationChange
          || decide (s.currAlpha ≠ s.lastAlpha)
          || decide (s.currBeta ≠ s.lastBeta)
          || decide (s.currGamma ≠ s.lastGamma) } := by
  cases s
  simp only [stepOrientation]
  split_ifs <;> simp_all [TornisState.mk.injEq]


/-! ### Tick-level helper lemmas -/

theorem updating_eta (t : TornisState) (h : t.updating = false) :
    { t with updating := false } = t := by
  cases t; simp_all

theorem reconcile_updating (env : Env) (s : TornisState) :
    (reconcile env s).updating = s.updating := by
  simp only [reconcile, stepOrientation_eq, stepMouseY_eq, stepMouseX_eq, stepSize_eq,
    stepScroll_eq, stepWindowY_eq, stepWindowX_eq, resetFlags_eq]

theorem reconcile_callbacks (env : Env) (s : TornisState) :
    (reconcile env s).callbacks = s.callbacks := by
  simp only [reconcile, stepOrientation_eq, stepMouseY_eq, stepMouseX_eq, stepSize_eq,
    stepScroll_eq, stepWindowY_eq, stepWindowX_eq, resetFlags_eq]

theorem update_fst (env : Env) (s : TornisState) (h : s.updating = false) :
    (update env s).1 = { reconcile env s with updating := false } := by
  have hng : ¬(s.updating = true) := by simp [h]
  unfold update
  rw [if_neg hng]
  dsimp only
  split_ifs with h1 h2
  · dsimp only
    exact (updating_eta _ ((reconcile_updating env s).trans h)).symm
  · rfl
  · rfl

theorem update_snd (env : Env) (s : TornisState) (h : s.updating = false) :
    (update env s).2.1 =
      (if changedAny (reconcile env s) then
        (dispatchList (reconcile env s).callbacks (formatData (reconcile env s))).1
      else []) := by
  have hng : ¬(s.updating = true) := by simp [h]
  unfold update
  rw [if_neg hng]
  dsimp only
  split_ifs with h1 h2 <;> dsimp only

theorem reconcile_scrollChange (env : Env) (s : TornisState) :
    (reconcile env s).scrollChange =
      ((decide (env.pageXOffset = s.lastX) && jsNeq s.scrollXVelocity (some 0))
        || (decide (env.pageYOffset = s.lastY) && jsNeq s.scrollYVelocity (some 0))
        || decide (env.pageXOffset ≠ s.lastX)
        || decide (env.pageYOffset ≠ s.lastY)) := by
  simp only [reconcile, stepOrientation_eq, stepMouseY_eq, stepMouseX_eq, stepSize_eq,
    stepScroll_eq, stepWindowY_eq, stepWindowX_eq, resetFlags_eq, Bool.false_or]

theorem reconcile_sizeChange (env : Env) (s : TornisState) :
    (reconcile env s).sizeChange =
      (decide (s.currWidth ≠ s.lastWidth) || decide (s.currHeight ≠ s.lastHeight)) := by
  simp only [reconcile, stepOrientation_eq, stepMouseY_eq, stepMouseX_eq, stepSize_eq,
    stepScroll_eq, stepWindowY_eq, stepWindowX_eq, resetFlags_eq, Bool.false_or]

theorem reconcile_mouseChange (env : Env) (s : TornisState) :
    (reconcile env s).mouseChange =
      (jsNeq (getMean (pushDelta s.mouseXVelocity (s.currMouseX - s.lastMouseX)))
          s.lastMouseXVelocity
        || decide (s.currMouseX ≠ s.lastMouseX)
        || jsNeq (getMean (pushDelta s.mouseYVelocity (s.currMouseY - s.lastMouseY)))
            s.lastMouseYVelocity
        || decide (s.currMouseY ≠ s.lastMouseY)
        || jsNeq (getMean (pushDelta s.mouseYVelocity (s.currMouseY - s.lastMouseY)))
            (some 0)) := by
  simp only [reconcile, stepOrientation_eq, stepMouseY_eq, stepMouseX_eq, stepSize_eq,
    stepScroll_eq, stepWindowY_eq, stepWindowX_eq, resetFlags_eq, Bool.false_or]

theorem reconcile_positionChange (env : Env) (s : TornisState) :
    (reconcile env s).positionChange =
      (jsNeq (getMean (pushDelta s.windowXVelocity (env.screenX - s.lastWindowX)))
          s.lastWindowXVelocity
        || decide (env.screenX ≠ s.lastWindowX)
        || jsNeq (getMean (pushDelta s.windowYVelocity (env.screenY - s.lastWindowY)))
            s.lastWindowYVelocity
        || decide (env.screenY ≠ s.lastWindowY)) := by
  simp only [reconcile, stepOrientation_eq, stepMouseY_eq, stepMouseX_eq, stepSize_eq,
    stepScroll_eq, stepWindowY_eq, stepWindowX_eq, resetFlags_eq, Bool.false_or]

theorem reconcile_orientationChange (env : Env) (s : TornisState) :
    (reconcile env s).orientationChange =
      (decide (s.currAlpha ≠ s.lastAlpha) || decide (s.currBeta ≠ s.lastBeta)
        || decide (s.currGamma ≠ s.lastGamma)) := by
  simp only [reconcile, stepOrientation_eq, stepMouseY_eq, stepMouseX_eq, stepSize_eq,
    stepScroll_eq, stepWindowY_eq, stepWindowX_eq, resetFlags_eq, Bool.false_or]

theorem reconcile_scrollHeight (env : Env) (s : TornisState) :
    (reconcile env s).scrollHeight =
      (if s.currWidth = s.lastWidth then s.scrollHeight else env.scrollHeight) := by
  simp only [reconcile, stepOrientation_eq, stepMouseY_eq, stepMouseX_eq, stepSize_eq,
    stepScroll_eq, stepWindowY_eq, stepWindowX_eq, resetFlags_eq]

/-! ### Per-field values after one reconciliation pass -/

theorem reconcile_lastX (env : Env) (s : TornisState) :
    (reconcile env s).lastX =
      (if env.pageXOffset = s.lastX then s.lastX else env.pageXOffset) := by
  simp only [reconcile, stepOrientation_eq, stepMouseY_eq, stepMouseX_eq, stepSize_eq,
    stepScroll_eq, stepWindowY_eq, stepWindowX_eq, resetFlags_eq]

theorem reconcile_lastY (env : Env) (s : TornisState) :
    (reconcile env s).lastY =
      (if env.pageYOffset = s.lastY then s.lastY else env.pageYOffset) := by
  simp only [reconcile, stepOrientation_eq, stepMouseY_eq, stepMouseX_eq, stepSize_eq,
    stepScroll_eq, stepWindowY_eq, stepWindowX_eq, resetFlags_eq]

theorem reconcile_scrollXVelocity (env : Env) (s : TornisState) :
    (reconcile env s).scrollXVelocity =
      (if env.pageXOffset = s.lastX then
        (if jsNeq s.scrollXVelocity (some 0) then some 0 else s.scrollXVelocity)
      else some ((⌊env.pageXOffset - s.lastX⌋ : ℤ) : ℚ)) := by
  simp only [reconcile, stepOrientation_eq, stepMouseY_eq, stepMouseX_eq, stepSize_eq,
    stepScroll_eq, stepWindowY_eq, stepWindowX_eq, resetFlags_eq]

theorem reconcile_scrollYVelocity (env : Env) (s : TornisState) :
    (reconcile env s).scrollYVelocity =
      (if env.pageYOffset = s.lastY then
        (if jsNeq s.scrollYVelocity (some 0) then some 0 else s.scrollYVelocity)
      else some ((⌊env.pageYOffset - s.lastY⌋ : ℤ) : ℚ)) := by
  simp only [reconcile, stepOrientation_eq, stepMouseY_eq, stepMouseX_eq, stepSize_eq,
    stepScroll_eq, stepWindowY_eq, stepWindowX_eq, resetFlags_eq]

theorem reconcile_lastWindowX (env : Env) (s : TornisState) :
    (reconcile env s).lastWindowX =
      (if env.screenX = s.lastWindowX then s.lastWindowX else env.screenX) := by
  simp only [reconcile, stepOrientation_eq, stepMouseY_eq, stepMouseX_eq, stepSize_eq,
    stepScroll_eq, stepWindowY_eq, stepWindowX_eq, resetFlags_eq]

theorem reconcile_lastWindowY (env : Env) (s : TornisState) :
    (reconcile env s).lastWindowY =
      (if env.screenY = s.lastWindowY then s.lastWindowY else env.screenY) := by
  simp only [reconcile, stepOrientation_eq, stepMouseY_eq, stepMouseX_eq, stepSize_eq,
    stepScroll_eq, stepWindowY_eq, stepWindowX_eq, resetFlags_eq]

theorem reconcile_windowXVelocity (env : Env) (s : TornisState) :
    (reconcile env s).windowXVelocity =
      (pushDelta s.windowXVelocity (env.screenX - s.lastWindowX)) := by
  simp only [reconcile, stepOrientation_eq, stepMouseY_eq, stepMouseX_eq, stepSize_eq,
    stepScroll_eq, stepWindowY_eq, stepWindowX_eq, resetFlags_eq]

theorem reconcile_windowYVelocity (env : Env) (s : TornisState) :
    (reconcile env s).windowYVelocity =
      (pushDelta s.windowYVelocity (env.screenY - s.lastWindowY)) := by
  simp only [reconcile, stepOrientation_eq, stepMouseY_eq, stepMouseX_eq, stepSize_eq,
    stepScroll_eq, stepWindowY_eq, stepWindowX_eq, resetFlags_eq]

theorem reconcile_lastWindowXVelocity (env : Env) (s : TornisState) :
    (reconcile env s).lastWindowXVelocity =
      (if jsNeq (getMean (pushDelta s.windowXVelocity (env.screenX - s.lastWindowX))) s.lastWindowXVelocity then getMean (pushDelta s.windowXVelocity (env.screenX - s.lastWindowX))
      else s.lastWindowXVelocity) := by
  simp only [reconcile, stepOrientation_eq, stepMouseY_eq, stepMouseX_eq, stepSize_eq,
    stepScroll_eq, stepWindowY_eq, stepWindowX_eq, resetFlags_eq]

theorem reconcile_lastWindowYVelocity (env : Env) (s : TornisState) :
    (reconcile env s).lastWindowYVelocity =
      (if jsNeq (getMean (pushDelta s.windowYVelocity (env.screenY - s.lastWindowY))) s.lastWindowYVelocity then getMean (pushDelta s.windowYVelocity (env.screenY - s.lastWindowY))
      else s.lastWindowYVelocity) := by
  simp only [reconcile, stepOrientation_eq, stepMouseY_eq, stepMouseX_eq, stepSize_eq,
    stepScroll_eq, stepWindowY_eq, stepWindowX_eq, resetFlags_eq]

theorem reconcile_lastWidth (env : Env) (s : TornisState) :
    (reconcile env s).lastWidth =
      (if s.currWidth = s.lastWidth then s.lastWidth else s.currWidth) := by
  simp only [reconcile, stepOrientation_eq, stepMouseY_eq, stepMouseX_eq, stepSize_eq,
    stepScroll_eq, stepWindowY_eq, stepWindowX_eq, resetFlags_eq]

theorem reconcile_lastHeight (env : Env) (s : TornisState) :
    (reconcile env s).lastHeight =
      (if s.currHeight = s.lastHeight then s.lastHeight else s.currHeight) := by
  simp only [reconcile, stepOrientation_eq, stepMouseY_eq, stepMouseX_eq, stepSize_eq,
    stepScroll_eq, stepWindowY_eq, stepWindowX_eq, resetFlags_eq]

theorem reconcile_lastMouseX (env : Env) (s : TornisState) :
    (reconcile env s).lastMouseX =
      (if s.currMouseX = s.lastMouseX then s.lastMouseX else s.currMouseX) := by
  simp only [reconcile, stepOrientation_eq, stepMouseY_eq, stepMouseX_eq, stepSize_eq,
    stepScroll_eq, stepWindowY_eq, stepWindowX_eq, resetFlags_eq]

theorem reconcile_lastMouseY (env : Env) (s : TornisState) :
    (reconcile env s).lastMouseY =
      (if s.currMouseY ≠ s.lastMouseY ∨ jsNeq (getMean (pushDelta s.mouseYVelocity (s.currMouseY - s.lastMouseY))) (some 0) = true then
        s.currMouseY
      else s.lastMouseY) := by
  simp only [reconcile, stepOrientation_eq, stepMouseY_eq, stepMouseX_eq, stepSize_eq,
    stepScroll_eq, stepWindowY_eq, stepWindowX_eq, resetFlags_eq]

theorem reconcile_mouseXVelocity (env : Env) (s : TornisState) :
    (reconcile env s).mouseXVelocity =
      (pushDelta s.mouseXVelocity (s.currMouseX - s.lastMouseX)) := by
  simp only [reconcile, stepOrientation_eq, stepMouseY_eq, stepMouseX_eq, stepSize_eq,
    stepScroll_eq, stepWindowY_eq, stepWindowX_eq, resetFlags_eq]

theorem reconcile_mouseYVelocity (env : Env) (s : TornisState) :
    (reconcile env s).mouseYVelocity =
      (pushDelta s.mouseYVelocity (s.currMouseY - s.lastMouseY)) := by
  simp only [reconcile, stepOrientation_eq, stepMouseY_eq, stepMouseX_eq, stepSize_eq,
    stepScroll_eq, stepWindowY_eq, stepWindowX_eq, resetFlags_eq]

theorem reconcile_lastMouseXVelocity (env : Env) (s : TornisState) :
    (reconcile env s).lastMouseXVelocity =
      (if jsNeq (getMean (pushDelta s.mouseXVelocity (s.currMouseX - s.lastMouseX))) s.lastMouseXVelocity then getMean (pushDelta s.mouseXVelocity (s.currMouseX - s.lastMouseX))
      else s.lastMouseXVelocity) := by
  simp only [reconcile, stepOrientation_eq, stepMouseY_eq, stepMouseX_eq, stepSize_eq,
    stepScroll_eq, stepWindowY_eq, stepWindowX_eq, resetFlags_eq]

theorem reconcile_lastMouseYVelocity (env : Env) (s : TornisState) :
    (reconcile env s).lastMouseYVelocity =
      (if jsNeq (getMean (pushDelta s.mouseYVelocity (s.currMouseY - s.lastMouseY))) s.lastMouseYVelocity then getMean (pushDelta s.mouseYVelocity (s.currMouseY - s.lastMouseY))
      else s.lastMouseYVelocity) := by
  simp only [reconcile, stepOrientation_eq, stepMouseY_eq, stepMouseX_eq, stepSize_eq,
    stepScroll_eq, stepWindowY_eq, stepWindowX_eq, resetFlags_eq]

theorem reconcile_lastAlpha (env : Env) (s : TornisState) :
    (reconcile env s).lastAlpha =
      (if s.currAlpha = s.lastAlpha then s.lastAlpha else s.currAlpha) := by
  simp only [reconcile, stepOrientation_eq, stepMouseY_eq, stepMouseX_eq, stepSize_eq,
    stepScroll_eq, stepWindowY_eq, stepWindowX_eq, resetFlags_eq]

theorem reconcile_lastBeta (env : Env) (s : TornisState) :
    (reconcile env s).lastBeta =
      (if s.currBeta = s.lastBeta then s.lastBeta else s.currBeta) := by
  simp only [reconcile, stepOrientation_eq, stepMouseY_eq, stepMouseX_eq, stepSize_eq,
    stepScroll_eq, stepWindowY_eq, stepWindowX_eq, resetFlags_eq]

theorem reconcile_lastGamma (env : Env) (s : TornisState) :
    (reconcile env s).lastGamma =
      (if s.currGamma = s.lastGamma then s.lastGamma else s.currGamma) := by
  simp only [reconcile, stepOrientation_eq, stepMouseY_eq, stepMouseX_eq, stepSize_eq,
    stepScroll_eq, stepWindowY_eq, stepWindowX_eq, resetFlags_eq]

theorem reconcile_currWidth (env : Env) (s : TornisState) :
    (reconcile env s).currWidth =
      (s.currWidth) := by
  simp only [reconcile, stepOrientation_eq, stepMouseY_eq, stepMouseX_eq, stepSize_eq,
    stepScroll_eq, stepWindowY_eq, stepWindowX_eq, resetFlags_eq]

theorem reconcile_currHeight (env : Env) (s : TornisState) :
    (reconcile env s).currHeight =
      (s.currHeight) := by
  simp only [reconcile, stepOrientation_eq, stepMouseY_eq, stepMouseX_eq, stepSize_eq,
    stepScroll_eq, stepWindowY_eq, stepWindowX_eq, resetFlags_eq]

theorem reconcile_currMouseX (env : Env) (s : TornisState) :
    (reconcile env s).currMouseX =
      (s.currMouseX) := by
  simp only [reconcile, stepOrientation_eq, stepMouseY_eq, stepMouseX_eq, stepSize_eq,
    stepScroll_eq, stepWindowY_eq, stepWindowX_eq, resetFlags_eq]

theorem reconcile_currMouseY (env : Env) (s : TornisState) :
    (reconcile env s).currMouseY =
      (s.currMouseY) := by
  simp only [reconcile, stepOrientation_eq, stepMouseY_eq, stepMouseX_eq, stepSize_eq,
    stepScroll_eq, stepWindowY_eq, stepWindowX_eq, resetFlags_eq]

theorem reconcile_currAlpha (env : Env) (s : TornisState) :
    (reconcile env s).currAlpha =
      (s.currAlpha) := by
  simp only [reconcile, stepOrientation_eq, stepMouseY_eq, stepMouseX_eq, stepSize_eq,
    stepScroll_eq, stepWindowY_eq, stepWindowX_eq, resetFlags_eq]

theorem reconcile_currBeta (env : Env) (s : TornisState) :
    (reconcile env s).currBeta =
      (s.currBeta) := by
  simp only [reconcile, stepOrientation_eq, stepMouseY_eq, stepMouseX_eq, stepSize_eq,
    stepScroll_eq, stepWindowY_eq, stepWindowX_eq, resetFlags_eq]

theorem reconcile_currGamma (env : Env) (s : TornisState) :
    (reconcile env s).currGamma =
      (s.currGamma) := by
  simp only [reconcile, stepOrientation_eq, stepMouseY_eq, stepMouseX_eq, stepSize_eq,
    stepScroll_eq, stepWindowY_eq, stepWindowX_eq, resetFlags_eq]

theorem reconcile_initialAlpha (env : Env) (s : TornisState) :
    (reconcile env s).initialAlpha =
      (s.initialAlpha) := by
  simp only [reconcile, stepOrientation_eq, stepMouseY_eq, stepMouseX_eq, stepSize_eq,
    stepScroll_eq, stepWindowY_eq, stepWindowX_eq, resetFlags_eq]

theorem reconcile_initialBeta (env : Env) (s : TornisState) :
    (reconcile env s).initialBeta =
      (s.initialBeta) := by
  simp only [reconcile, stepOrientation_eq, stepMouseY_eq, stepMouseX_eq, stepSize_eq,
    stepScroll_eq, stepWindowY_eq, stepWindowX_eq, resetFlags_eq]

theorem reconcile_initialGamma (env : Env) (s : TornisState) :
    (reconcile env s).initialGamma =
      (s.initialGamma) := by
  simp only [reconcile, stepOrientation_eq, stepMouseY_eq, stepMouseX_eq, stepSize_eq,
    stepScroll_eq, stepWindowY_eq, stepWindowX_eq, resetFlags_eq]


/-! ### Facts about jsNeq, getMean and the change flags -/

theorem jsNeq_some_right_false (v : JsNum) (q : ℚ) :
    jsNeq v (some q) = false ↔ v = some q := by
  cases v <;> simp [jsNeq]

theorem jsNeq_some_right_true (v : JsNum) (q : ℚ) :
    jsNeq v (some q) = true ↔ v ≠ some q := by
  cases v <;> simp [jsNeq]

theorem jsNeq_some_left_true (q : ℚ) (v : JsNum) :
    jsNeq (some q) v = true ↔ v ≠ some q := by
  cases v <;> simp [jsNeq, ne_comm]

theorem pushDelta_ne_nil (l : List ℚ) (d : ℚ) : pushDelta l d ≠ [] := by
  simp [pushDelta]

theorem getMean_pushDelta_some (l : List ℚ) (d : ℚ) :
    ∃ m : ℚ, getMean (pushDelta l d) = some m :=
  ⟨((⌊(pushDelta l d).sum / ((pushDelta l d).length : ℚ)⌋ : ℤ) : ℚ), by
    simp [getMean, List.isEmpty_iff, pushDelta_ne_nil l d]⟩

theorem mem_pushDelta_zero (l : List ℚ) (h : ∀ x ∈ l, x = 0) :
    ∀ x ∈ pushDelta l 0, x = 0 := by
  intro x hx
  rcases List.mem_append.mp hx with hx | hx
  · split at hx
    · exact h x (List.mem_of_mem_tail hx)
    · exact h x hx
  · simpa using hx

theorem getMean_all_zero (l : List ℚ) (hne : l ≠ []) (h : ∀ x ∈ l, x = 0) :
    getMean l = some 0 := by
  have hsum : l.sum = 0 := List.sum_eq_zero h
  simp [getMean, List.isEmpty_iff, hne, hsum]

theorem getMean_pushDelta_zero (l : List ℚ) (h : ∀ x ∈ l, x = 0) :
    getMean (pushDelta l 0) = some 0 :=
  getMean_all_zero _ (pushDelta_ne_nil l 0) (mem_pushDelta_zero l h)

theorem velUpdate_ne (l : List ℚ) (d : ℚ) (v : JsNum) :
    ((if jsNeq (getMean (pushDelta l d)) v then getMean (pushDelta l d) else v) ≠ v) ↔
      jsNeq (getMean (pushDelta l d)) v = true := by
  obtain ⟨m, hm⟩ := getMean_pushDelta_some l d
  rw [hm]
  by_cases h : jsNeq (some m) v = true
  · simp [h]
    exact Ne.symm ((jsNeq_some_left_true m v).mp h)
  · simp [h]


theorem sizeChange_iff (env : Env) (s : TornisState) :
    ((reconcile env s).sizeChange = true ↔
      (s.currWidth ≠ s.lastWidth ∨ s.currHeight ≠ s.lastHeight)) := by
  rw [reconcile_sizeChange]
  simp

theorem orientationChange_iff (env : Env) (s : TornisState) :
    ((reconcile env s).orientationChange = true ↔
      (s.currAlpha ≠ s.lastAlpha ∨ s.currBeta ≠ s.lastBeta ∨
        s.currGamma ≠ s.lastGamma)) := by
  rw [reconcile_orientationChange]
  simp [or_assoc]

theorem positionChange_iff (env : Env) (s : TornisState) :
    ((reconcile env s).positionChange = true ↔
      (env.screenX ≠ s.lastWindowX ∨ env.screenY ≠ s.lastWindowY ∨
        (reconcile env s).lastWindowXVelocity ≠ s.lastWindowXVelocity ∨
        (reconcile env s).lastWindowYVelocity ≠ s.lastWindowYVelocity)) := by
  rw [reconcile_positionChange, reconcile_lastWindowXVelocity, reconcile_lastWindowYVelocity]
  simp only [Bool.or_eq_true, decide_eq_true_eq, velUpdate_ne]
  tauto

theorem mouseChange_iff (env : Env) (s : TornisState) :
    ((reconcile env s).mouseChange = true ↔
      (s.currMouseX ≠ s.lastMouseX ∨ s.currMouseY ≠ s.lastMouseY ∨
        (reconcile env s).lastMouseXVelocity ≠ s.lastMouseXVelocity ∨
        (reconcile env s).lastMouseYVelocity ≠ s.lastMouseYVelocity ∨
        jsNeq (getMean ((reconcile env s).mouseYVelocity)) (some 0) = true)) := by
  rw [reconcile_mouseChange, reconcile_lastMouseXVelocity, reconcile_lastMouseYVelocity,
    reconcile_mouseYVelocity]
  simp only [Bool.or_eq_true, decide_eq_true_eq, velUpdate_ne]
  tauto

theorem scrollVelNe_iff (p l : ℚ) (v : JsNum) :
    (((if p = l then (if jsNeq v (some 0) then some 0 else v)
        else some ((⌊p - l⌋ : ℤ) : ℚ)) ≠ v) ∨ p ≠ l) ↔
      ((p = l ∧ jsNeq v (some 0) = true) ∨ p ≠ l) := by
  by_cases hp : p = l
  · rw [if_pos hp]
    by_cases hv : jsNeq v (some 0) = true
    · rw [if_pos hv]
      simp [hp, hv, Ne.symm ((jsNeq_some_right_true v 0).mp hv)]
    · rw [if_neg hv]
      simp [hp, hv]
  · simp [hp]

theorem scrollChange_iff (env : Env) (s : TornisState) :
    ((reconcile env s).scrollChange = true ↔
      (env.pageXOffset ≠ s.lastX ∨ env.pageYOffset ≠ s.lastY ∨
        (reconcile env s).scrollXVelocity ≠ s.scrollXVelocity ∨
        (reconcile env s).scrollYVelocity ≠ s.scrollYVelocity)) := by
  rw [reconcile_scrollChange, reconcile_scrollXVelocity, reconcile_scrollYVelocity]
  have hX := scrollVelNe_iff env.pageXOffset s.lastX s.scrollXVelocity
  have hY := scrollVelNe_iff env.pageYOffset s.lastY s.scrollYVelocity
  simp only [Bool.or_eq_true, Bool.and_eq_true, decide_eq_true_eq] at *
  tauto


/-! ### The claims -/

/-- The fixed browser environment used by the concrete scenarios. -/
def env0 : Env where
  innerWidth := 800
  innerHeight := 600
  screenX := 0
  screenY := 0
  pageXOffset := 0
  pageYOffset := 0
  scrollHeight := 1000

/-- A subscriber whose invocation throws. -/
def cbThrow : JsCallbackVal := ⟨0, true, true⟩

/-- A well-behaved subscriber. -/
def cbOk : JsCallbackVal := ⟨1, true, false⟩

/-- A value that is not invocable. -/
def cbNotFn : JsCallbackVal := ⟨2, false, false⟩

/-- C1: the claim says a rolling velocity buffer never exceeds 5 entries and
that pushing a 6th delta evicts the oldest first.  In the code the eviction
check `length > 5` runs before the push, so six consecutive pushes starting
from an empty buffer leave all six deltas in the buffer (nothing is
evicted), the mean is taken over six entries (here floor(21/6) = 3, not the
five-entry mean floor(20/5) = 4), and after six engine ticks the mouse X
buffer indeed holds 6 entries. -/
theorem c1_sixth_push_keeps_six :
    (List.foldl pushDelta [] ([1, 2, 3, 4, 5, 6] : List ℚ) = [1, 2, 3, 4, 5, 6]) ∧
    ((List.foldl pushDelta [] ([1, 2, 3, 4, 5, 6] : List ℚ)).length = 6) ∧
    (getMean (List.foldl pushDelta [] ([1, 2, 3, 4, 5, 6] : List ℚ)) = some 3) ∧
    (getMean [2, 3, 4, 5, 6] = some 4) ∧
    ((tickN env0 (initTornis env0) 6).mouseXVelocity.length = 6) := by
  norm_num [List.foldl, pushDelta, getMean, tickN, update, reconcile, stepWindowX,
    stepWindowY, stepScroll, stepSize, stepMouseX, stepMouseY, stepOrientation,
    resetFlags, changedAny, dispatchList, jsNeq, initTornis, env0]

/-- Engine state with a throwing subscriber registered before a well-behaved
one (registered through `watch` itself). -/
def sC2 : TornisState :=
  (watch ((watch (initTornis env0) cbThrow false).2.1) cbOk false).2.1

/-- C2: the claim says a subscriber that throws must not prevent later
subscribers from running.  The dispatch loop is a bare `forEach` with no
exception isolation: on a changed tick with subscribers [cbThrow, cbOk],
only cbThrow is invoked, the exception aborts the tick, and cbOk is never
called. -/
theorem c2_throw_skips_later_subscribers :
    ((update env0 sC2).2.1.map Prod.fst = [cbThrow]) ∧
    ((update env0 sC2).2.2 = true) ∧
    (cbOk ∉ (update env0 sC2).2.1.map Prod.fst) := by
  norm_num [sC2, update, reconcile, stepWindowX, stepWindowY, stepScroll, stepSize,
    stepMouseX, stepMouseY, stepOrientation, resetFlags, changedAny, dispatchList,
    pushDelta, getMean, jsNeq, initTornis, env0, watch, cbThrow, cbOk]

/-- C7 counterexample: a throwing callback is invocable, and `watch(cb, true)`
does invoke it exactly once with all changed flags forced — but the
exception propagates out of `watch` and the callback is never appended to
the subscriber list, so the claim that the single invocation happens
"before appending it to the subscriber list" fails for this callback. -/
theorem c7_counterexample_throwing_immediate_call :
    (cbThrow.isFunction = true) ∧
    ((watch (initTornis env0) cbThrow true).2.2 =
      [(cbThrow, forceAllChanged (formatData (initTornis env0)))]) ∧
    ((watch (initTornis env0) cbThrow true).1 = .error .callbackException) ∧
    ((watch (initTornis env0) cbThrow true).2.1.callbacks =
      (initTornis env0).callbacks) ∧
    ((initTornis env0).callbacks = []) := by
  simp [watch, cbThrow, initTornis]

/-- C7 (amended): `watch(cb, true)` synchronously invokes an invocable
callback exactly once, with a snapshot whose five changed flags are all
forced true while the other fields are those of the current formatted state
(`s` is arbitrary, so this holds regardless of the actual change state).
If the invocation returns normally the callback is then appended to the
subscriber list; if it throws, the exception propagates out of `watch` and
the callback is not appended. -/
theorem c7_watch_immediate_amended (s : TornisState) (cb : JsCallbackVal)
    (h : cb.isFunction = true) :
    ((watch s cb true).2.2 = [(cb, forceAllChanged (formatData s))]) ∧
    (((forceAllChanged (formatData s)).scroll.changed = true) ∧
      ((forceAllChanged (formatData s)).size.changed = true) ∧
      ((forceAllChanged (formatData s)).mouse.changed = true) ∧
      ((forceAllChanged (formatData s)).position.changed = true) ∧
      ((forceAllChanged (formatData s)).orientation.changed = true) ∧
      ((forceAllChanged (formatData s)).scroll.left = (formatData s).scroll.left) ∧
      ((forceAllChanged (formatData s)).size.x = (formatData s).size.x) ∧
      ((forceAllChanged (formatData s)).mouse.velocity = (formatData s).mouse.velocity) ∧
      ((forceAllChanged (formatData s)).position.top = (formatData s).position.top) ∧
      ((forceAllChanged (formatData s)).orientation.alpha
        = (formatData s).orientation.alpha)) ∧
    (cb.throws = false →
      (watch s cb true).1 = .ok () ∧
      (watch s cb true).2.1.callbacks = s.callbacks ++ [cb]) ∧
    (cb.throws = true →
      (watch s cb true).1 = .error .callbackException ∧
      (watch s cb true).2.1.callbacks = s.callbacks) := by
  cases hcb : cb.throws <;> simp [watch, h, hcb, forceAllChanged]

/-- C7 witness at a concrete state and a non-throwing callback: invoked once
with the forced snapshot and then appended. -/
theorem c7_witness :
    cbOk.isFunction = true ∧ cbOk.throws = false ∧
    ((watch (initTornis env0) cbOk true).2.2 =
      [(cbOk, forceAllChanged (formatData (initTornis env0)))]) ∧
    ((watch (initTornis env0) cbOk true).2.1.callbacks =
      (initTornis env0).callbacks ++ [cbOk]) :=
  ⟨rfl, rfl, (c7_watch_immediate_amended (initTornis env0) cbOk rfl).1,
    ((c7_watch_immediate_amended (initTornis env0) cbOk rfl).2.2.1 rfl).2⟩

/-- C8: a non-invocable argument makes both `watch` and `unwatch` fail
synchronously with the invalid-callback error, leaving the state (hence the
subscriber list) untouched and performing no invocation. -/
theorem c8_invalid_callback_rejected (s : TornisState) (v : JsCallbackVal) (b : Bool)
    (h : v.isFunction = false) :
    ((watch s v b).1 = .error .invalidCallback) ∧
    ((watch s v b).2.1 = s) ∧
    ((watch s v b).2.2 = []) ∧
    ((unwatch s v).1 = .error .invalidCallback) ∧
    ((unwatch s v).2 = s) := by
  simp [watch, unwatch, h]

/-- C8 witness at a concrete state and non-function value. -/
theorem c8_witness :
    cbNotFn.isFunction = false ∧
    (watch (initTornis env0) cbNotFn true).1 = .error .invalidCallback ∧
    (watch (initTornis env0) cbNotFn true).2.1 = initTornis env0 ∧
    (unwatch (initTornis env0) cbNotFn).2 = initTornis env0 :=
  ⟨rfl, (c8_invalid_callback_rejected (initTornis env0) cbNotFn true rfl).1,
    (c8_invalid_callback_rejected (initTornis env0) cbNotFn true rfl).2.1,
    (c8_invalid_callback_rejected (initTornis env0) cbNotFn true rfl).2.2.2.2⟩

/-- Each formatted velocity or orientation reading is the floored value with
the `|| 0` guard, hence always `some` integral rational. -/
theorem jsOrZero_jsFloor_int (v : JsNum) :
    ∃ n : ℤ, jsOrZero (jsFloor v) = some ((n : ℤ) : ℚ) := by
  cases v with
  | none => exact ⟨0, rfl⟩
  | some q => exact ⟨⌊q⌋, rfl⟩

/-- C9: every velocity field and every orientation field of a formatted
snapshot is an integer-valued number, never NaN; computations whose floored
result would be NaN (undefined scroll velocity before the first tick, a NaN
stored mean, an orientation subtraction before any orientation event) are
reported as 0. -/
theorem c9_velocities_integral_never_nan (s : TornisState) :
    (∃ n : ℤ, (formatData s).scroll.velocity.x = some ((n : ℤ) : ℚ)) ∧
    (∃ n : ℤ, (formatData s).scroll.velocity.y = some ((n : ℤ) : ℚ)) ∧
    (∃ n : ℤ, (formatData s).mouse.velocity.x = some ((n : ℤ) : ℚ)) ∧
    (∃ n : ℤ, (formatData s).mouse.velocity.y = some ((n : ℤ) : ℚ)) ∧
    (∃ n : ℤ, (formatData s).position.velocity.x = some ((n : ℤ) : ℚ)) ∧
    (∃ n : ℤ, (formatData s).position.velocity.y = some ((n : ℤ) : ℚ)) ∧
    (∃ n : ℤ, (formatData s).orientation.alpha = some ((n : ℤ) : ℚ)) ∧
    (∃ n : ℤ, (formatData s).orientation.beta = some ((n : ℤ) : ℚ)) ∧
    (∃ n : ℤ, (formatData s).orientation.gamma = some ((n : ℤ) : ℚ)) ∧
    ((formatData { s with initialAlpha := none }).orientation.alpha = some 0) ∧
    ((formatData { s with scrollXVelocity := none }).scroll.velocity.x = some 0) ∧
    ((formatData { s with lastMouseXVelocity := none }).mouse.velocity.x = some 0) := by
  refine ⟨jsOrZero_jsFloor_int _, jsOrZero_jsFloor_int _, jsOrZero_jsFloor_int _,
    jsOrZero_jsFloor_int _, jsOrZero_jsFloor_int _, jsOrZero_jsFloor_int _,
    jsOrZero_jsFloor_int _, jsOrZero_jsFloor_int _, jsOrZero_jsFloor_int _,
    rfl, rfl, rfl⟩

/-- Dispatch over throw-free subscribers invokes every one of them in order
and does not abort. -/
theorem dispatchList_no_throw (L : List JsCallbackVal) (snap : Snapshot)
    (h : ∀ c ∈ L, c.throws = false) :
    dispatchList L snap = (L.map (fun c => (c, snap)), false) := by
  induction L with
  | nil => rfl
  | cons c rest ih =>
    have hc : c.throws = false := h c (List.mem_cons_self c rest)
    have hr := ih (fun d hd => h d (List.mem_cons_of_mem c hd))
    simp [dispatchList, hc, hr]

/-- Initial state with one well-behaved subscriber, used by the C10
counterexample. -/
def sWatchedOnce : TornisState := (watch (initTornis env0) cbOk false).2.1

/-- C10 counterexample: `watch` does not append unconditionally.  With a
subscriber already registered, `watch(cbThrow, true)` on a throwing callback
propagates the exception from the immediate call and leaves the subscriber
list exactly as it was — the push line is never reached. -/
theorem c10_counterexample_throwing_immediate_skips_append :
    (cbThrow.isFunction = true) ∧
    ((watch sWatchedOnce cbThrow true).1 = .error .callbackException) ∧
    (sWatchedOnce.callbacks = [cbOk]) ∧
    ((watch sWatchedOnce cbThrow true).2.1.callbacks = [cbOk]) := by
  norm_num [watch, sWatchedOnce, initTornis, env0, cbOk, cbThrow]

/-- C10 (amended): `watch` appends the callback without any duplicate check
whenever the call completes — always when the immediate call is skipped,
and for any flag value when the callback does not throw (if the immediate
call throws, the exception propagates and nothing is appended); the
dispatch loop invokes each stored occurrence (so a callback stored k times
runs k times on a dispatching tick), and one `unwatch` removes every
occurrence at once while leaving other callbacks untouched. -/
theorem c10_duplicates_amended (s : TornisState) (cb : JsCallbackVal) (b : Bool)
    (hf : cb.isFunction = true) (hnt : ∀ c ∈ s.callbacks, c.throws = false) :
    ((watch s cb false).2.1.callbacks = s.callbacks ++ [cb]) ∧
    (cb.throws = false → (watch s cb b).2.1.callbacks = s.callbacks ++ [cb]) ∧
    (∀ snap, (dispatchList s.callbacks snap).1.map Prod.fst = s.callbacks) ∧
    ((unwatch s cb).2.callbacks.count cb = 0) ∧
    (∀ c, c ≠ cb → (unwatch s cb).2.callbacks.count c = s.callbacks.count c) := by
  refine ⟨by simp [watch, hf], ?_, ?_, ?_, ?_⟩
  · intro ht
    cases b <;> simp [watch, hf, ht]
  · intro snap
    rw [dispatchList_no_throw _ _ hnt]
    have hid : (Prod.fst ∘ fun c : JsCallbackVal => (c, snap)) = id := rfl
    simp [hid]
  · simp [unwatch, hf, List.count_eq_zero, List.mem_filter]
  · intro c hc
    simp only [unwatch, hf]
    rw [if_neg (by simp [hf])]
    simp [List.count_filter, hc]

/-- Engine state in which the same callback has been subscribed twice. -/
def sTwice : TornisState :=
  (watch ((watch (initTornis env0) cbOk false).2.1) cbOk false).2.1

/-- C10 witness: cbOk registered twice, invoked once per stored occurrence
on a dispatch, then removed entirely by one unwatch. -/
theorem c10_witness :
    cbOk.isFunction = true ∧
    (∀ c ∈ sTwice.callbacks, c.throws = false) ∧
    sTwice.callbacks.count cbOk = 2 ∧
    ((dispatchList sTwice.callbacks (formatData sTwice)).1.map Prod.fst
      = sTwice.callbacks) ∧
    ((unwatch sTwice cbOk).2.callbacks.count cbOk = 0) := by
  have hnt : ∀ c ∈ sTwice.callbacks, c.throws = false := by
    simp [sTwice, watch, initTornis, env0, cbOk]
  refine ⟨rfl, hnt, ?_,
    (c10_duplicates_amended sTwice cbOk false rfl hnt).2.2.1 (formatData sTwice),
    (c10_duplicates_amended sTwice cbOk false rfl hnt).2.2.2.1⟩
  simp [sTwice, watch, initTornis, env0, cbOk]


/-- A settled engine state for a fixed environment: every native value
matches the last-known one, every stored velocity is zero, and every rolling
buffer holds only zeros.  This is the state the engine reaches after enough
change-free ticks. -/
def quiescent (env : Env) (s : TornisState) : Prop :=
  env.pageXOffset = s.lastX ∧ env.pageYOffset = s.lastY ∧
  env.screenX = s.lastWindowX ∧ env.screenY = s.lastWindowY ∧
  s.currWidth = s.lastWidth ∧ s.currHeight = s.lastHeight ∧
  s.currMouseX = s.lastMouseX ∧ s.currMouseY = s.lastMouseY ∧
  s.currAlpha = s.lastAlpha ∧ s.currBeta = s.lastBeta ∧ s.currGamma = s.lastGamma ∧
  s.scrollXVelocity = some 0 ∧ s.scrollYVelocity = some 0 ∧
  s.lastWindowXVelocity = some 0 ∧ s.lastWindowYVelocity = some 0 ∧
  s.lastMouseXVelocity = some 0 ∧ s.lastMouseYVelocity = some 0 ∧
  (∀ x ∈ s.windowXVelocity, x = 0) ∧ (∀ x ∈ s.windowYVelocity, x = 0) ∧
  (∀ x ∈ s.mouseXVelocity, x = 0) ∧ (∀ x ∈ s.mouseYVelocity, x = 0)

/-- A tick on a quiescent, non-re-entrant state performs no invocation and
leaves the state quiescent and non-re-entrant. -/
theorem quiescent_tick (env : Env) (s : TornisState) (hq : quiescent env s)
    (hu : s.updating = false) :
    (update env s).2.1 = [] ∧ quiescent env (update env s).1 ∧
      (update env s).1.updating = false := by
  obtain ⟨h1, h2, h3, h4, h5, h6, h7, h8, h9, h10, h11, h12, h13, h14, h15, h16, h17,
    h18, h19, h20, h21⟩ := hq
  have dwx : env.screenX - s.lastWindowX = 0 := by rw [h3, sub_self]
  have dwy : env.screenY - s.lastWindowY = 0 := by rw [h4, sub_self]
  have dmx : s.currMouseX - s.lastMouseX = 0 := by rw [h7, sub_self]
  have dmy : s.currMouseY - s.lastMouseY = 0 := by rw [h8, sub_self]
  have gwx : getMean (pushDelta s.windowXVelocity (env.screenX - s.lastWindowX))
      = some 0 := by rw [dwx]; exact getMean_pushDelta_zero _ h18
  have gwy : getMean (pushDelta s.windowYVelocity (env.screenY - s.lastWindowY))
      = some 0 := by rw [dwy]; exact getMean_pushDelta_zero _ h19
  have gmx : getMean (pushDelta s.mouseXVelocity (s.currMouseX - s.lastMouseX))
      = some 0 := by rw [dmx]; exact getMean_pushDelta_zero _ h20
  have gmy : getMean (pushDelta s.mouseYVelocity (s.currMouseY - s.lastMouseY))
      = some 0 := by rw [dmy]; exact getMean_pushDelta_zero _ h21
  have gwx0 : getMean (pushDelta s.windowXVelocity 0) = some 0 :=
    getMean_pushDelta_zero _ h18
  have gwy0 : getMean (pushDelta s.windowYVelocity 0) = some 0 :=
    getMean_pushDelta_zero _ h19
  have gmx0 : getMean (pushDelta s.mouseXVelocity 0) = some 0 :=
    getMean_pushDelta_zero _ h20
  have gmy0 : getMean (pushDelta s.mouseYVelocity 0) = some 0 :=
    getMean_pushDelta_zero _ h21
  have hflags : changedAny (reconcile env s) = false := by
    simp [changedAny, reconcile_scrollChange, reconcile_sizeChange, reconcile_mouseChange,
      reconcile_positionChange, reconcile_orientationChange, h1, h2, h3, h4, h5, h6, h7,
      h8, h9, h10, h11, h12, h13, h14, h15, h16, h17, gwx, gwy, gmx, gmy,
      gwx0, gwy0, gmx0, gmy0, jsNeq]
  refine ⟨?_, ?_, ?_⟩
  · rw [update_snd env s hu, hflags]
    simp
  · rw [update_fst env s hu]
    dsimp only
    refine ⟨?_, ?_, ?_, ?_, ?_, ?_, ?_, ?_, ?_, ?_, ?_, ?_, ?_, ?_, ?_, ?_, ?_,
      ?_, ?_, ?_, ?_⟩
    · simp [reconcile_lastX, h1]
    · simp [reconcile_lastY, h2]
    · simp [reconcile_lastWindowX, h3]
    · simp [reconcile_lastWindowY, h4]
    · simp [reconcile_currWidth, reconcile_lastWidth, h5]
    · simp [reconcile_currHeight, reconcile_lastHeight, h6]
    · simp [reconcile_currMouseX, reconcile_lastMouseX, h7]
    · simp [reconcile_currMouseY, reconcile_lastMouseY, h8]
    · simp [reconcile_currAlpha, reconcile_lastAlpha, h9]
    · simp [reconcile_currBeta, reconcile_lastBeta, h10]
    · simp [reconcile_currGamma, reconcile_lastGamma, h11]
    · simp [reconcile_scrollXVelocity, h1, h12, jsNeq]
    · simp [reconcile_scrollYVelocity, h2, h13, jsNeq]
    · simp [reconcile_lastWindowXVelocity, gwx, h14, jsNeq]
    · simp [reconcile_lastWindowYVelocity, gwy, h15, jsNeq]
    · simp [reconcile_lastMouseXVelocity, gmx, h16, jsNeq]
    · simp [reconcile_lastMouseYVelocity, gmy, h17, jsNeq]
    · rw [reconcile_windowXVelocity, dwx]
      exact mem_pushDelta_zero _ h18
    · rw [reconcile_windowYVelocity, dwy]
      exact mem_pushDelta_zero _ h19
    · rw [reconcile_mouseXVelocity, dmx]
      exact mem_pushDelta_zero _ h20
    · rw [reconcile_mouseYVelocity, dmy]
      exact mem_pushDelta_zero _ h21
  · rw [update_fst env s hu]

/-- C3 (amended): from a quiescent state, any number of ticks against an
unchanged environment (no native value changes, no events fire) invokes no
subscriber on any of those ticks. -/
theorem c3_quiescent_ticks_never_dispatch (env : Env) (s : TornisState)
    (hq : quiescent env s) (hu : s.updating = false) :
    ∀ n, (update env (tickN env s n)).2.1 = [] := by
  have key : ∀ n, quiescent env (tickN env s n) ∧ (tickN env s n).updating = false := by
    intro n
    induction n with
    | zero => exact ⟨hq, hu⟩
    | succ n ih =>
      exact ⟨(quiescent_tick env _ ih.1 ih.2).2.1, (quiescent_tick env _ ih.1 ih.2).2.2⟩
  intro n
  exact (quiescent_tick env _ (key n).1 (key n).2).1


/-- Initial state with one well-behaved subscriber (added without the
immediate call). -/
def sWatched : TornisState := (watch (initTornis env0) cbOk false).2.1

/-- The environment after the page scrolls to y = 100. -/
def envScroll : Env := { env0 with pageYOffset := 100 }

/-- State after the tick that observed the scroll to y = 100. -/
def sScrolled : TornisState := (update envScroll sWatched).1

/-- C3 counterexample: on the tick after a scroll settled, every native
value equals the last-known value of the engine (and no event has fired), yet
the subscriber is invoked once more, because the stored scroll velocity is
reset to zero on that tick.  This contradicts the claim that no subscriber
runs on a tick without a native-value change. -/
theorem c3_counterexample_settle_tick_dispatches :
    (sScrolled.lastX = envScroll.pageXOffset) ∧
    (sScrolled.lastY = envScroll.pageYOffset) ∧
    (sScrolled.lastWindowX = envScroll.screenX) ∧
    (sScrolled.lastWindowY = envScroll.screenY) ∧
    (sScrolled.currWidth = sScrolled.lastWidth) ∧
    (sScrolled.currHeight = sScrolled.lastHeight) ∧
    (sScrolled.currMouseX = sScrolled.lastMouseX) ∧
    (sScrolled.currMouseY = sScrolled.lastMouseY) ∧
    (sScrolled.currAlpha = sScrolled.lastAlpha) ∧
    (sScrolled.currBeta = sScrolled.lastBeta) ∧
    (sScrolled.currGamma = sScrolled.lastGamma) ∧
    (sScrolled.scrollHeight = envScroll.scrollHeight) ∧
    ((update envScroll sScrolled).2.1.map Prod.fst = [cbOk]) := by
  norm_num [sScrolled, sWatched, envScroll, update, reconcile, stepWindowX, stepWindowY,
    stepScroll, stepSize, stepMouseX, stepMouseY, stepOrientation, resetFlags, changedAny,
    dispatchList, pushDelta, getMean, jsNeq, initTornis, env0, watch, cbOk]

/-- The quiescent state reached one tick after initialisation. -/
def sQuiet : TornisState := (update env0 (initTornis env0)).1

/-- C3 witness: the concrete state one tick after initialisation is
quiescent for the unchanged environment, and a further tick performs no
invocation. -/
theorem c3_witness :
    quiescent env0 sQuiet ∧ sQuiet.updating = false ∧
    (update env0 (tickN env0 sQuiet 0)).2.1 = [] := by
  have hq : quiescent env0 sQuiet := by
    norm_num [quiescent, sQuiet, update, reconcile, stepWindowX, stepWindowY, stepScroll,
      stepSize, stepMouseX, stepMouseY, stepOrientation, resetFlags, changedAny,
      dispatchList, pushDelta, getMean, jsNeq, initTornis, env0]
  have hu : sQuiet.updating = false := by
    norm_num [sQuiet, update, reconcile, stepWindowX, stepWindowY, stepScroll,
      stepSize, stepMouseX, stepMouseY, stepOrientation, resetFlags, changedAny,
      dispatchList, pushDelta, getMean, jsNeq, initTornis, env0]
  exact ⟨hq, hu, c3_quiescent_ticks_never_dispatch env0 sQuiet hq hu 0⟩

/-- The engine state reached from initialisation by one mouse move to
y = 18 followed by five frames of stillness: the mouse Y buffer holds
[18, 0, 0, 0, 0] and the stored mouse Y velocity is 3. -/
def mouseSettleState : TornisState :=
  tickN env0 (handleMouse 0 18 (initTornis env0)) 5

/-- C4 counterexample: on the next tick of `mouseSettleState`, the mouse
changed flag ends the tick true although the mouse position and both stored
mouse velocities are unchanged and the newly computed buffer mean equals the
stored velocity — the extra `getMean != 0` clause of the mouse Y branch
fires.  This contradicts the claimed "if and only if". -/
theorem c4_counterexample_mouse_flag_without_difference :
    ((update env0 mouseSettleState).1.mouseChange = true) ∧
    ((update env0 mouseSettleState).1.lastMouseX = mouseSettleState.lastMouseX) ∧
    ((update env0 mouseSettleState).1.lastMouseY = mouseSettleState.lastMouseY) ∧
    ((update env0 mouseSettleState).1.lastMouseXVelocity
      = mouseSettleState.lastMouseXVelocity) ∧
    ((update env0 mouseSettleState).1.lastMouseYVelocity
      = mouseSettleState.lastMouseYVelocity) ∧
    (getMean ((update env0 mouseSettleState).1.mouseYVelocity)
      = mouseSettleState.lastMouseYVelocity) ∧
    ((update env0 mouseSettleState).1.scrollXVelocity
      = mouseSettleState.scrollXVelocity) ∧
    ((update env0 mouseSettleState).1.scrollYVelocity
      = mouseSettleState.scrollYVelocity) := by
  norm_num [mouseSettleState, tickN, update, reconcile, stepWindowX, stepWindowY, stepScroll,
    stepSize, stepMouseX, stepMouseY, stepOrientation, resetFlags, changedAny, dispatchList,
    pushDelta, getMean, jsNeq, initTornis, env0, handleMouse]

/-- C4 (amended): on a non-re-entrant tick, each changed flag ends the tick
true exactly when the primary value or stored velocity of that axis differs
from the value stored on the previous tick, except that the mouse flag is
set whenever the mean of the updated mouse Y velocity buffer is nonzero.
The flags are recomputed from scratch: the right-hand sides do not depend on
the flags the tick started with. -/
theorem c4_changed_flags_amended (env : Env) (s : TornisState)
    (hu : s.updating = false) :
    (((update env s).1.scrollChange = true ↔
      (env.pageXOffset ≠ s.lastX ∨ env.pageYOffset ≠ s.lastY ∨
        (update env s).1.scrollXVelocity ≠ s.scrollXVelocity ∨
        (update env s).1.scrollYVelocity ≠ s.scrollYVelocity))
    ∧ ((update env s).1.sizeChange = true ↔
      (s.currWidth ≠ s.lastWidth ∨ s.currHeight ≠ s.lastHeight))
    ∧ ((update env s).1.mouseChange = true ↔
      (s.currMouseX ≠ s.lastMouseX ∨ s.currMouseY ≠ s.lastMouseY ∨
        (update env s).1.lastMouseXVelocity ≠ s.lastMouseXVelocity ∨
        (update env s).1.lastMouseYVelocity ≠ s.lastMouseYVelocity ∨
        jsNeq (getMean ((update env s).1.mouseYVelocity)) (some 0) = true))
    ∧ ((update env s).1.positionChange = true ↔
      (env.screenX ≠ s.lastWindowX ∨ env.screenY ≠ s.lastWindowY ∨
        (update env s).1.lastWindowXVelocity ≠ s.lastWindowXVelocity ∨
        (update env s).1.lastWindowYVelocity ≠ s.lastWindowYVelocity))
    ∧ ((update env s).1.orientationChange = true ↔
      (s.currAlpha ≠ s.lastAlpha ∨ s.currBeta ≠ s.lastBeta ∨
        s.currGamma ≠ s.lastGamma))) := by
  rw [update_fst env s hu]
  dsimp only
  exact ⟨scrollChange_iff env s, sizeChange_iff env s, mouseChange_iff env s,
    positionChange_iff env s, orientationChange_iff env s⟩

/-- C4 witness at a concrete state. -/
theorem c4_witness :
    (initTornis env0).updating = false ∧
    ((update env0 (initTornis env0)).1.sizeChange = true ↔
      ((initTornis env0).currWidth ≠ (initTornis env0).lastWidth ∨
        (initTornis env0).currHeight ≠ (initTornis env0).lastHeight)) :=
  ⟨rfl, (c4_changed_flags_amended env0 (initTornis env0) rfl).2.1⟩

/-- State whose orientation was calibrated at (10, 20, 30) and last read
(40, 50, 60), reached through orientation events and ticks. -/
def sOriented : TornisState :=
  tickN env0
    (handleOrientation 40 50 60
      (tickN env0 (handleOrientation 10 20 30 (initTornis env0)) 1)) 1

/-- C5 counterexample: the record returned by `recalibrateOrientation` has
no key named "previous" — the old baseline is stored under the key "prev"
(and the new baseline under "current"), so the claimed shape
`{previous, current}` is wrong. -/
theorem c5_counterexample_no_previous_key :
    (List.lookup "previous" (recalibrateOrientation sOriented).2 = none) ∧
    (List.lookup "prev" (recalibrateOrientation sOriented).2 =
      some ⟨some 10, some 20, some 30⟩) ∧
    (List.lookup "current" (recalibrateOrientation sOriented).2 =
      some ⟨some 40, some 50, some 60⟩) := by
  have e1 : (("previous" : String) == "prev") = false := by decide
  have e2 : (("previous" : String) == "current") = false := by decide
  have e3 : (("prev" : String) == "prev") = true := by decide
  have e4 : (("current" : String) == "prev") = false := by decide
  have e5 : (("current" : String) == "current") = true := by decide
  norm_num [sOriented, recalibrateOrientation, tickN, update, reconcile, stepWindowX,
    stepWindowY, stepScroll, stepSize, stepMouseX, stepMouseY, stepOrientation,
    resetFlags, changedAny, dispatchList, pushDelta, getMean, jsNeq, jsFalsy,
    initTornis, env0, handleOrientation, List.lookup, e1, e2, e3, e4, e5]

/-- C5 (amended): `recalibrateOrientation` replaces the calibration baseline
with the most recent last-recorded orientation reading and returns a record
shaped {prev, current}, where prev holds the baseline from before the call
and current the new baseline. -/
theorem c5_recalibrate_amended (s : TornisState) :
    ((recalibrateOrientation s).1.initialAlpha = some s.lastAlpha) ∧
    ((recalibrateOrientation s).1.initialBeta = some s.lastBeta) ∧
    ((recalibrateOrientation s).1.initialGamma = some s.lastGamma) ∧
    (List.lookup "prev" (recalibrateOrientation s).2 =
      some ⟨s.initialAlpha, s.initialBeta, s.initialGamma⟩) ∧
    (List.lookup "current" (recalibrateOrientation s).2 =
      some ⟨some s.lastAlpha, some s.lastBeta, some s.lastGamma⟩) := by
  simp [recalibrateOrientation, List.lookup]

/-- The environment after the viewport grows taller (and the document would
report a new scrollable height). -/
def envTaller : Env := { env0 with innerHeight := 700, scrollHeight := 2000 }

/-- Initial state after the resize handler captured the new height. -/
def sTaller : TornisState := handleResize envTaller (initTornis env0)

/-- C6 counterexample: on a tick where only the height changed, the size
flag is set and the new height stored, but the document scrollable height is
not re-polled — the stored value (and the snapshot docY) remain stale at
1000 although the document now reports 2000.  Only a width change re-polls
docY. -/
theorem c6_counterexample_height_change_keeps_stale_docY :
    (sTaller.currHeight ≠ sTaller.lastHeight) ∧
    (sTaller.currWidth = sTaller.lastWidth) ∧
    ((update envTaller sTaller).1.sizeChange = true) ∧
    ((update envTaller sTaller).1.lastHeight = 700) ∧
    (envTaller.scrollHeight = 2000) ∧
    ((update envTaller sTaller).1.scrollHeight = 1000) ∧
    ((formatData (update envTaller sTaller).1).size.docY = 1000) := by
  norm_num [sTaller, envTaller, update, reconcile, stepWindowX, stepWindowY, stepScroll,
    stepSize, stepMouseX, stepMouseY, stepOrientation, resetFlags, changedAny,
    dispatchList, pushDelta, getMean, jsNeq, jsSub, jsFloor, jsOrZero, formatData,
    initTornis, env0, handleResize]

/-- C6 (amended): the document scrollable height is re-polled exactly when
the viewport width changed on that tick; a height-only change leaves it
untouched. -/
theorem c6_docY_repoll_amended (env : Env) (s : TornisState)
    (hu : s.updating = false) :
    (update env s).1.scrollHeight =
      (if s.currWidth = s.lastWidth then s.scrollHeight else env.scrollHeight) := by
  rw [update_fst env s hu]
  dsimp only
  exact reconcile_scrollHeight env s

/-- C6 witness at the concrete height-only resize. -/
theorem c6_witness :
    sTaller.updating = false ∧
    (update envTaller sTaller).1.scrollHeight =
      (if sTaller.currWidth = sTaller.lastWidth then sTaller.scrollHeight
        else envTaller.scrollHeight) :=
  ⟨rfl, c6_docY_repoll_amended envTaller sTaller rfl⟩

end Tornis
